import Mathlib

/-!
Verification of the OpenCode client protocol layer of spacebot.

The development shallowly embeds the serde-based deserialization of
SSE event envelopes (src/opencode/types.rs) and the conversation
history query (src/conversation/history.rs).

Modelling conventions:
- JSON values are modelled by the inductive type Json below; numbers are
  modelled as integers (no claim depends on non-integral numeric values).
- Derived serde Deserialize implementations are modelled by their
  map-based behaviour: a struct deserializes from a JSON object, unknown
  keys are ignored, a field marked with a serde default is defaulted
  when the key is absent, an Option field accepts null as None, and an
  internally tagged enum dispatches on its tag field, rejecting a
  missing, non-string or unknown tag (except where the source opts into
  a catch-all variant with the serde other attribute).
- serde_json object maps have unique keys, so field lookup takes the
  first matching key of the association list.
-/

namespace Spacebot

/-- JSON value, mirroring serde_json::Value (numbers as integers). -/
inductive Json where
  | null
  | bool (b : Bool)
  | num (n : Int)
  | str (s : String)
  | arr (elems : List Json)
  | obj (fields : List (String × Json))

/-- Key lookup in a JSON object's field list (first match). -/
def getField (fields : List (String × Json)) (key : String) : Option Json :=
  match fields with
  | [] => none
  | (k, v) :: rest => if k = key then some v else getField rest key

/-- Deserialize an Option field value: null is None, otherwise the inner parser must succeed. -/
def parseOpt {α : Type} (p : Json → Option α) : Json → Option (Option α)
  | .null => some none
  | v => (p v).map some

/-- A required struct field: the key must be present and parse. -/
def reqField {α : Type} (p : Json → Option α) (fields : List (String × Json)) (key : String) :
    Option α :=
  match getField fields key with
  | none => none
  | some v => p v

/-- An Option field with a serde default: absent key means None. -/
def optField {α : Type} (p : Json → Option α) (fields : List (String × Json)) (key : String) :
    Option (Option α) :=
  match getField fields key with
  | none => some none
  | some v => parseOpt p v

/-- A field with a serde default value: absent key yields the default. -/
def defField {α : Type} (p : Json → Option α) (d : α) (fields : List (String × Json))
    (key : String) : Option α :=
  match getField fields key with
  | none => some d
  | some v => p v

/-- Deserialize a Rust String: only a JSON string is accepted. -/
def parseStr : Json → Option String
  | .str s => some s
  | _ => none

/-- Deserialize a serde_json::Value field: any JSON value is accepted as itself. -/
def parseJsonValue : Json → Option Json :=
  fun v => some v

/-- Deserialize a u32: an integer in range. -/
def parseU32 : Json → Option Nat
  | .num n => if 0 ≤ n ∧ n < 4294967296 then some n.toNat else none
  | _ => none

/-- Deserialize a Vec via an element parser. -/
def parseArr {α : Type} (p : Json → Option α) : Json → Option (List α)
  | .arr xs => xs.mapM p
  | _ => none

/-- Deserialize a HashMap of String keys to JSON values. -/
def parseMap : Json → Option (List (String × Json))
  | .obj fs => some fs
  | _ => none

/-- Time span for message/part timing (TimeSpan in types.rs). -/
structure TimeSpan where
  start : Option Int
  «end» : Option Int

/-- Deserializer for TimeSpan: both fields are defaulted Options. -/
def parseTimeSpan : Json → Option TimeSpan
  | .obj fs => do
      let s ← optField (fun j => match j with | .num n => some n | _ => none) fs "start"
      let e ← optField (fun j => match j with | .num n => some n | _ => none) fs "end"
      some { start := s, «end» := e }
  | _ => none

/-- A message in a session (MessageInfo in types.rs). -/
structure MessageInfo where
  id : String
  role : String
  session_id : Option String
  time : Option TimeSpan

/-- Deserializer for MessageInfo: id and role required, sessionID and time defaulted. -/
def parseMessageInfo : Json → Option MessageInfo
  | .obj fs => do
      let id ← reqField parseStr fs "id"
      let role ← reqField parseStr fs "role"
      let sid ← optField parseStr fs "sessionID"
      let time ← optField parseTimeSpan fs "time"
      some { id := id, role := role, session_id := sid, time := time }
  | _ => none

/-- Tool execution state, internally tagged by the status field (ToolState in types.rs). -/
inductive ToolState where
  | Pending (input : Option Json)
  | Running (input : Option Json) (title : Option String) (metadata : Option (List (String × Json)))
  | Completed (input : Option Json) (output : Option String) (title : Option String)
      (metadata : Option (List (String × Json)))
  | Error (input : Option Json) (error : Option String)

/-- Deserializer for ToolState: dispatch on the status tag; unknown tags fail. -/
def parseToolState : Json → Option ToolState
  | .obj fs =>
    match getField fs "status" with
    | some (.str status) =>
        if status = "pending" then do
          let input ← optField parseJsonValue fs "input"
          some (ToolState.Pending input)
        else if status = "running" then do
          let input ← optField parseJsonValue fs "input"
          let title ← optField parseStr fs "title"
          let metadata ← optField parseMap fs "metadata"
          some (ToolState.Running input title metadata)
        else if status = "completed" then do
          let input ← optField parseJsonValue fs "input"
          let output ← optField parseStr fs "output"
          let title ← optField parseStr fs "title"
          let metadata ← optField parseMap fs "metadata"
          some (ToolState.Completed input output title metadata)
        else if status = "error" then do
          let input ← optField parseJsonValue fs "input"
          let error ← optField parseStr fs "error"
          some (ToolState.Error input error)
        else none
    | _ => none
  | _ => none

/-- Check if this is a running state (ToolState::is_running). -/
def ToolState.is_running : ToolState → Bool
  | .Running _ _ _ => true
  | _ => false

/-- Check if this is a completed state (ToolState::is_completed). -/
def ToolState.is_completed : ToolState → Bool
  | .Completed _ _ _ _ => true
  | _ => false

/-- Check if this is an error state (ToolState::is_error). -/
def ToolState.is_error : ToolState → Bool
  | .Error _ _ => true
  | _ => false

/-- Get a display-friendly status string (ToolState::status_str). -/
def ToolState.status_str : ToolState → String
  | .Pending _ => "pending"
  | .Running _ _ _ => "running"
  | .Completed _ _ _ _ => "completed"
  | .Error _ _ => "error"

/-- A content part within a message, internally tagged by the type field (Part in types.rs). -/
inductive Part where
  | Text (id : String) (session_id : Option String) (message_id : Option String)
      (text : String) (time : Option TimeSpan)
  | Tool (id : String) (session_id : Option String) (message_id : Option String)
      (call_id : Option String) (tool : Option String) (state : Option ToolState)
  | StepStart (id : String) (session_id : Option String)
  | StepFinish (id : String) (session_id : Option String) (reason : Option String)
  | Other

/-- Deserializer for Part: dispatch on the type tag; unknown string tags give Other. -/
def parsePart : Json → Option Part
  | .obj fs =>
    match getField fs "type" with
    | some (.str t) =>
        if t = "text" then do
          let id ← reqField parseStr fs "id"
          let sid ← optField parseStr fs "sessionID"
          let mid ← optField parseStr fs "messageID"
          let text ← defField parseStr "" fs "text"
          let time ← optField parseTimeSpan fs "time"
          some (Part.Text id sid mid text time)
        else if t = "tool" then do
          let id ← reqField parseStr fs "id"
          let sid ← optField parseStr fs "sessionID"
          let mid ← optField parseStr fs "messageID"
          let cid ← optField parseStr fs "callID"
          let tool ← optField parseStr fs "tool"
          let state ← optField parseToolState fs "state"
          some (Part.Tool id sid mid cid tool state)
        else if t = "step-start" then do
          let id ← reqField parseStr fs "id"
          let sid ← optField parseStr fs "sessionID"
          some (Part.StepStart id sid)
        else if t = "step-finish" then do
          let id ← reqField parseStr fs "id"
          let sid ← optField parseStr fs "sessionID"
          let reason ← optField parseStr fs "reason"
          some (Part.StepFinish id sid reason)
        else some Part.Other
    | _ => none
  | _ => none

/-- Session status payload, internally tagged by the type field (SessionStatusPayload). -/
inductive SessionStatusPayload where
  | Idle
  | Busy
  | Retry (attempt : Nat) (message : Option String)

/-- Deserializer for SessionStatusPayload: attempt is defaulted to 0, message to None. -/
def parseSessionStatusPayload : Json → Option SessionStatusPayload
  | .obj fs =>
    match getField fs "type" with
    | some (.str t) =>
        if t = "idle" then some SessionStatusPayload.Idle
        else if t = "busy" then some SessionStatusPayload.Busy
        else if t = "retry" then do
          let attempt ← defField parseU32 0 fs "attempt"
          let message ← optField parseStr fs "message"
          some (SessionStatusPayload.Retry attempt message)
        else none
    | _ => none
  | _ => none

/-- Permission request from OpenCode (PermissionRequest in types.rs). -/
structure PermissionRequest where
  id : String
  session_id : String
  permission : Option String
  patterns : List String
  metadata : List (String × Json)

/-- Deserializer for PermissionRequest. -/
def parsePermissionRequest : Json → Option PermissionRequest
  | .obj fs => do
      let id ← reqField parseStr fs "id"
      let sid ← reqField parseStr fs "sessionID"
      let perm ← optField parseStr fs "permission"
      let patterns ← defField (parseArr parseStr) [] fs "patterns"
      let metadata ← defField parseMap [] fs "metadata"
      some { id := id, session_id := sid, permission := perm,
             patterns := patterns, metadata := metadata }
  | _ => none

/-- An option within a question (QuestionOption in types.rs). -/
structure QuestionOption where
  label : String
  description : Option String

/-- Deserializer for QuestionOption. -/
def parseQuestionOption : Json → Option QuestionOption
  | .obj fs => do
      let label ← reqField parseStr fs "label"
      let descr ← optField parseStr fs "description"
      some { label := label, description := descr }
  | _ => none

/-- Individual question within a question request (QuestionInfo in types.rs). -/
structure QuestionInfo where
  question : Option String
  header : Option String
  options : List QuestionOption

/-- Deserializer for QuestionInfo. -/
def parseQuestionInfo : Json → Option QuestionInfo
  | .obj fs => do
      let q ← optField parseStr fs "question"
      let header ← optField parseStr fs "header"
      let options ← defField (parseArr parseQuestionOption) [] fs "options"
      some { question := q, header := header, options := options }
  | _ => none

/-- Question request from OpenCode (QuestionRequest in types.rs). -/
structure QuestionRequest where
  id : String
  session_id : String
  questions : List QuestionInfo

/-- Deserializer for QuestionRequest. -/
def parseQuestionRequest : Json → Option QuestionRequest
  | .obj fs => do
      let id ← reqField parseStr fs "id"
      let sid ← reqField parseStr fs "sessionID"
      let questions ← defField (parseArr parseQuestionInfo) [] fs "questions"
      some { id := id, session_id := sid, questions := questions }
  | _ => none

-- Properties structs for each event type (types.rs, after the dispatcher).

/-- Properties of a message.updated event. -/
structure MessageUpdatedProps where
  info : Option MessageInfo

/-- Deserializer for MessageUpdatedProps: info is a defaulted Option. -/
def parseMessageUpdatedProps : Json → Option MessageUpdatedProps
  | .obj fs => do
      let info ← optField parseMessageInfo fs "info"
      some { info := info }
  | _ => none

/-- Properties of a message.part.updated event. -/
structure MessagePartUpdatedProps where
  part : Part
  delta : Option String

/-- Deserializer for MessagePartUpdatedProps: part required, delta defaulted. -/
def parseMessagePartUpdatedProps : Json → Option MessagePartUpdatedProps
  | .obj fs => do
      let part ← reqField parsePart fs "part"
      let delta ← optField parseStr fs "delta"
      some { part := part, delta := delta }
  | _ => none

/-- Properties carrying only a required sessionID. -/
structure SessionIdProps where
  session_id : String

/-- Deserializer for SessionIdProps. -/
def parseSessionIdProps : Json → Option SessionIdProps
  | .obj fs => do
      let sid ← reqField parseStr fs "sessionID"
      some { session_id := sid }
  | _ => none

/-- Properties of a session.error event; both fields defaulted. -/
structure SessionErrorProps where
  session_id : Option String
  error : Option Json

/-- The derived Default value of SessionErrorProps. -/
instance : Inhabited SessionErrorProps :=
  ⟨{ session_id := none, error := none }⟩

/-- Deserializer for SessionErrorProps. -/
def parseSessionErrorProps : Json → Option SessionErrorProps
  | .obj fs => do
      let sid ← optField parseStr fs "sessionID"
      let err ← optField parseJsonValue fs "error"
      some { session_id := sid, error := err }
  | _ => none

/-- Properties of a session.status event. -/
structure SessionStatusProps where
  session_id : String
  status : SessionStatusPayload

/-- Deserializer for SessionStatusProps: both fields required. -/
def parseSessionStatusProps : Json → Option SessionStatusProps
  | .obj fs => do
      let sid ← reqField parseStr fs "sessionID"
      let status ← reqField parseSessionStatusPayload fs "status"
      some { session_id := sid, status := status }
  | _ => none

/-- Properties of a permission.replied event. -/
structure PermissionRepliedProps where
  session_id : String
  request_id : String
  reply : String

/-- Deserializer for PermissionRepliedProps: all fields required. -/
def parsePermissionRepliedProps : Json → Option PermissionRepliedProps
  | .obj fs => do
      let sid ← reqField parseStr fs "sessionID"
      let rid ← reqField parseStr fs "requestID"
      let reply ← reqField parseStr fs "reply"
      some { session_id := sid, request_id := rid, reply := reply }
  | _ => none

/-- Properties of a question.replied event. -/
structure QuestionRepliedProps where
  session_id : String
  request_id : String

/-- Deserializer for QuestionRepliedProps: both fields required. -/
def parseQuestionRepliedProps : Json → Option QuestionRepliedProps
  | .obj fs => do
      let sid ← reqField parseStr fs "sessionID"
      let rid ← reqField parseStr fs "requestID"
      some { session_id := sid, request_id := rid }
  | _ => none

/-- Raw SSE event envelope from OpenCode (SseEventEnvelope in types.rs). -/
structure SseEventEnvelope where
  event_type : String
  properties : Json

/-- Parsed SSE event (SseEvent in types.rs). -/
inductive SseEvent where
  | MessageUpdated (info : Option MessageInfo)
  | MessagePartUpdated (part : Part) (delta : Option String)
  | SessionIdle (session_id : String)
  | SessionError (session_id : Option String) (error : Option Json)
  | SessionStatus (session_id : String) (status : SessionStatusPayload)
  | PermissionAsked (request : PermissionRequest)
  | PermissionReplied (session_id : String) (request_id : String) (reply : String)
  | QuestionAsked (request : QuestionRequest)
  | QuestionReplied (session_id : String) (request_id : String)
  | Unknown (event_type : String)

/-- The nine event type strings the dispatcher recognizes. -/
def recognizedEventTypes : List String :=
  ["message.updated", "message.part.updated", "session.idle", "session.error",
   "session.status", "permission.asked", "permission.replied", "question.asked",
   "question.replied"]

/-- Parse from an envelope (SseEvent::from_envelope in types.rs). Returns Unknown
for unrecognized event types. -/
def SseEvent.fromEnvelope (envelope : SseEventEnvelope) : SseEvent :=
  let props := envelope.properties
  if envelope.event_type = "message.updated" then
    SseEvent.MessageUpdated ((parseMessageUpdatedProps props).bind MessageUpdatedProps.info)
  else if envelope.event_type = "message.part.updated" then
    match parseMessagePartUpdatedProps props with
    | some p => SseEvent.MessagePartUpdated p.part p.delta
    | none => SseEvent.Unknown "message.part.updated (parse error)"
  else if envelope.event_type = "session.idle" then
    match parseSessionIdProps props with
    | some p => SseEvent.SessionIdle p.session_id
    | none => SseEvent.Unknown "session.idle (parse error)"
  else if envelope.event_type = "session.error" then
    let p := (parseSessionErrorProps props).getD default
    SseEvent.SessionError p.session_id p.error
  else if envelope.event_type = "session.status" then
    match parseSessionStatusProps props with
    | some p => SseEvent.SessionStatus p.session_id p.status
    | none => SseEvent.Unknown "session.status (parse error)"
  else if envelope.event_type = "permission.asked" then
    match parsePermissionRequest props with
    | some p => SseEvent.PermissionAsked p
    | none => SseEvent.Unknown "permission.asked (parse error)"
  else if envelope.event_type = "permission.replied" then
    match parsePermissionRepliedProps props with
    | some p => SseEvent.PermissionReplied p.session_id p.request_id p.reply
    | none => SseEvent.Unknown "permission.replied (parse error)"
  else if envelope.event_type = "question.asked" then
    match parseQuestionRequest props with
    | some p => SseEvent.QuestionAsked p
    | none => SseEvent.Unknown "question.asked (parse error)"
  else if envelope.event_type = "question.replied" then
    match parseQuestionRepliedProps props with
    | some p => SseEvent.QuestionReplied p.session_id p.request_id
    | none => SseEvent.Unknown "question.replied (parse error)"
  else
    SseEvent.Unknown envelope.event_type

-- Request types (types.rs) and their serde Serialize output.

/-- A single part within a message prompt (PartInput in types.rs). -/
inductive PartInput where
  | Text (text : String) (synthetic : Option Bool)
  | File (mime : String) (url : String) (filename : Option String)

/-- Model selection for a prompt (ModelParam in types.rs). -/
structure ModelParam where
  provider_id : String
  model_id : String

/-- Body for the send prompt endpoint (SendPromptRequest in types.rs). -/
structure SendPromptRequest where
  parts : List PartInput
  system : Option String
  model : Option ModelParam
  agent : Option String

/-- Serializer for PartInput: internally tagged with type, snake case,
optional fields skipped when None. -/
def PartInput.toJson : PartInput → Json
  | .Text text synthetic =>
    Json.obj ([("type", Json.str "text"), ("text", Json.str text)] ++
      (match synthetic with
       | some b => [("synthetic", Json.bool b)]
       | none => []))
  | .File mime url filename =>
    Json.obj ([("type", Json.str "file"), ("mime", Json.str mime), ("url", Json.str url)] ++
      (match filename with
       | some f => [("filename", Json.str f)]
       | none => []))

/-- Serializer for ModelParam: camelCase keys. -/
def ModelParam.toJson (m : ModelParam) : Json :=
  Json.obj [("providerId", Json.str m.provider_id), ("modelId", Json.str m.model_id)]

/-- Serializer for SendPromptRequest: fields in declaration order; each of the
optional fields is skipped entirely when None (skip_serializing_if). -/
def SendPromptRequest.toJson (r : SendPromptRequest) : Json :=
  Json.obj ([("parts", Json.arr (r.parts.map PartInput.toJson))] ++
    (match r.system with
     | some s => [("system", Json.str s)]
     | none => []) ++
    (match r.model with
     | some m => [("model", ModelParam.toJson m)]
     | none => []) ++
    (match r.agent with
     | some a => [("agent", Json.str a)]
     | none => []))

/-- The key list of a serialized JSON object. -/
def Json.keys : Json → List String
  | .obj fs => fs.map Prod.fst
  | _ => []

-- Conversation history (src/conversation/history.rs). The SQLite table is
-- modelled as a list of rows; the SQL query of load_recent (filter by
-- channel_id, order by created_at descending, limit N) is embedded over it,
-- followed by the in-code reverse to chronological order. Timestamps are
-- modelled as naturals.

/-- A persisted conversation message (ConversationMessage in history.rs). -/
structure ConversationMessage where
  id : String
  channel_id : String
  role : String
  sender_name : Option String
  sender_id : Option String
  content : String
  metadata : Option String
  created_at : Nat
deriving DecidableEq

/-- The ordering used by the query: created_at descending. -/
def createdDesc (a b : ConversationMessage) : Prop :=
  b.created_at ≤ a.created_at

instance : DecidableRel createdDesc :=
  fun a b => Nat.decLe b.created_at a.created_at

instance : IsTotal ConversationMessage createdDesc :=
  ⟨fun a b => Nat.le_total b.created_at a.created_at⟩

instance : IsTrans ConversationMessage createdDesc :=
  ⟨fun _ _ _ hab hbc => Nat.le_trans hbc hab⟩

/-- The rows of a channel, in query order: filtered by channel_id and sorted
by created_at descending (the WHERE and ORDER BY clauses of load_recent). -/
def channelRowsDesc (db : List ConversationMessage) (channel_id : String) :
    List ConversationMessage :=
  List.insertionSort createdDesc (db.filter (fun m => m.channel_id == channel_id))

/-- Load recent messages for a channel, oldest first
(ConversationLogger::load_recent in history.rs): the LIMIT clause keeps the
first n query rows, and the code reverses them to chronological order. -/
def load_recent (db : List ConversationMessage) (channel_id : String) (limit : Nat) :
    List ConversationMessage :=
  ((channelRowsDesc db channel_id).take limit).reverse

-- Theorems for the claims.

/-- C5: status_str returns one of the four labels; the three predicates are
pairwise mutually exclusive; and each predicate holds exactly when status_str
returns the corresponding label. -/
theorem claim_C5 (s : ToolState) :
    (s.status_str = "pending" ∨ s.status_str = "running" ∨ s.status_str = "completed" ∨
      s.status_str = "error") ∧
    (s.is_running && s.is_completed) = false ∧
    (s.is_running && s.is_error) = false ∧
    (s.is_completed && s.is_error) = false ∧
    (s.is_running = true ↔ s.status_str = "running") ∧
    (s.is_completed = true ↔ s.status_str = "completed") ∧
    (s.is_error = true ↔ s.status_str = "error") := by
  cases s <;>
    simp [ToolState.status_str, ToolState.is_running, ToolState.is_completed, ToolState.is_error]

/-- C2: from_envelope is total: every envelope produces one of the event
constructors; there is no failing branch. -/
theorem claim_C2 (envelope : SseEventEnvelope) :
    (∃ info, SseEvent.fromEnvelope envelope = SseEvent.MessageUpdated info) ∨
    (∃ part delta, SseEvent.fromEnvelope envelope = SseEvent.MessagePartUpdated part delta) ∨
    (∃ sid, SseEvent.fromEnvelope envelope = SseEvent.SessionIdle sid) ∨
    (∃ sid err, SseEvent.fromEnvelope envelope = SseEvent.SessionError sid err) ∨
    (∃ sid st, SseEvent.fromEnvelope envelope = SseEvent.SessionStatus sid st) ∨
    (∃ p, SseEvent.fromEnvelope envelope = SseEvent.PermissionAsked p) ∨
    (∃ sid rid rep,
      SseEvent.fromEnvelope envelope = SseEvent.PermissionReplied sid rid rep) ∨
    (∃ q, SseEvent.fromEnvelope envelope = SseEvent.QuestionAsked q) ∨
    (∃ sid rid, SseEvent.fromEnvelope envelope = SseEvent.QuestionReplied sid rid) ∨
    (∃ s, SseEvent.fromEnvelope envelope = SseEvent.Unknown s) := by
  cases hE : SseEvent.fromEnvelope envelope <;> aesop

/-- C3: an envelope whose event type is not one of the nine recognized
discriminants maps to Unknown carrying the original event type verbatim,
whatever the properties are. -/
theorem claim_C3 (envelope : SseEventEnvelope)
    (h : envelope.event_type ∉ recognizedEventTypes) :
    SseEvent.fromEnvelope envelope = SseEvent.Unknown envelope.event_type := by
  simp only [recognizedEventTypes, List.mem_cons, List.not_mem_nil, or_false, not_or] at h
  obtain ⟨h1, h2, h3, h4, h5, h6, h7, h8, h9⟩ := h
  simp only [SseEvent.fromEnvelope, if_neg h1, if_neg h2, if_neg h3, if_neg h4, if_neg h5,
    if_neg h6, if_neg h7, if_neg h8, if_neg h9]

/-- C3 witness: the spec's concrete scenario 3. -/
theorem claim_C3_witness :
    SseEvent.fromEnvelope ⟨"foo.bar", Json.obj []⟩ = SseEvent.Unknown "foo.bar" :=
  claim_C3 ⟨"foo.bar", Json.obj []⟩ (by decide)

/-- C9: a message.updated envelope always classifies as MessageUpdated and
never as Unknown; a parse failure of the properties yields info = None. -/
theorem claim_C9 :
    (∀ props, SseEvent.fromEnvelope ⟨"message.updated", props⟩ =
      SseEvent.MessageUpdated ((parseMessageUpdatedProps props).bind MessageUpdatedProps.info)) ∧
    (∀ props s, SseEvent.fromEnvelope ⟨"message.updated", props⟩ ≠ SseEvent.Unknown s) ∧
    (∀ props, parseMessageUpdatedProps props = none →
      SseEvent.fromEnvelope ⟨"message.updated", props⟩ = SseEvent.MessageUpdated none) := by
  have h1 : ∀ props, SseEvent.fromEnvelope ⟨"message.updated", props⟩ =
      SseEvent.MessageUpdated ((parseMessageUpdatedProps props).bind MessageUpdatedProps.info) :=
    fun _ => rfl
  refine ⟨h1, ?_, ?_⟩
  · intro props s h
    rw [h1 props] at h
    exact SseEvent.noConfusion h
  · intro props h
    rw [h1 props, h]
    rfl

/-- C9 witness: non-object properties fail to parse and give info = None. -/
theorem claim_C9_witness :
    SseEvent.fromEnvelope ⟨"message.updated", Json.num 0⟩ = SseEvent.MessageUpdated none :=
  claim_C9.2.2 (Json.num 0) rfl

/-- C10: a session.error envelope always classifies as SessionError and never
as Unknown; a parse failure of the properties yields the defaulted value with
both fields None. -/
theorem claim_C10 :
    (∀ props, SseEvent.fromEnvelope ⟨"session.error", props⟩ =
      SseEvent.SessionError ((parseSessionErrorProps props).getD default).session_id
        ((parseSessionErrorProps props).getD default).error) ∧
    (∀ props s, SseEvent.fromEnvelope ⟨"session.error", props⟩ ≠ SseEvent.Unknown s) ∧
    (∀ props, parseSessionErrorProps props = none →
      SseEvent.fromEnvelope ⟨"session.error", props⟩ = SseEvent.SessionError none none) := by
  have h1 : ∀ props, SseEvent.fromEnvelope ⟨"session.error", props⟩ =
      SseEvent.SessionError ((parseSessionErrorProps props).getD default).session_id
        ((parseSessionErrorProps props).getD default).error :=
    fun _ => rfl
  refine ⟨h1, ?_, ?_⟩
  · intro props s h
    rw [h1 props] at h
    exact SseEvent.noConfusion h
  · intro props h
    rw [h1 props, h]
    rfl

/-- C10 witness: non-object properties fail to parse and give the default. -/
theorem claim_C10_witness :
    SseEvent.fromEnvelope ⟨"session.error", Json.num 0⟩ = SseEvent.SessionError none none :=
  claim_C10.2.2 (Json.num 0) rfl

/-- C1 counterexample: message.updated is a recognized discriminant, and an
info field that is not a MessageInfo object makes its properties fail to
deserialize, yet the dispatcher returns MessageUpdated with info = None, not
Unknown with a parse-error marker. -/
theorem claim_C1_counterexample :
    "message.updated" ∈ recognizedEventTypes ∧
    parseMessageUpdatedProps (Json.obj [("info", Json.num 5)]) = none ∧
    SseEvent.fromEnvelope ⟨"message.updated", Json.obj [("info", Json.num 5)]⟩ ≠
      SseEvent.Unknown "message.updated (parse error)" ∧
    SseEvent.fromEnvelope ⟨"message.updated", Json.obj [("info", Json.num 5)]⟩ =
      SseEvent.MessageUpdated none := by
  refine ⟨by decide, rfl, ?_, rfl⟩
  intro h
  rw [show SseEvent.fromEnvelope ⟨"message.updated", Json.obj [("info", Json.num 5)]⟩ =
      SseEvent.MessageUpdated none from rfl] at h
  exact SseEvent.noConfusion h

/-- C1 amended: for each of the seven recognized discriminants other than
message.updated and session.error, properties that fail to deserialize produce
Unknown of the event type followed by a parse-error marker, and no failure is
propagated; message.updated and session.error instead absorb the failure into
a defaulted event (claims C9 and C10). -/
theorem claim_C1_amended (props : Json) :
    (parseMessagePartUpdatedProps props = none →
      SseEvent.fromEnvelope ⟨"message.part.updated", props⟩ =
        SseEvent.Unknown "message.part.updated (parse error)") ∧
    (parseSessionIdProps props = none →
      SseEvent.fromEnvelope ⟨"session.idle", props⟩ =
        SseEvent.Unknown "session.idle (parse error)") ∧
    (parseSessionStatusProps props = none →
      SseEvent.fromEnvelope ⟨"session.status", props⟩ =
        SseEvent.Unknown "session.status (parse error)") ∧
    (parsePermissionRequest props = none →
      SseEvent.fromEnvelope ⟨"permission.asked", props⟩ =
        SseEvent.Unknown "permission.asked (parse error)") ∧
    (parsePermissionRepliedProps props = none →
      SseEvent.fromEnvelope ⟨"permission.replied", props⟩ =
        SseEvent.Unknown "permission.replied (parse error)") ∧
    (parseQuestionRequest props = none →
      SseEvent.fromEnvelope ⟨"question.asked", props⟩ =
        SseEvent.Unknown "question.asked (parse error)") ∧
    (parseQuestionRepliedProps props = none →
      SseEvent.fromEnvelope ⟨"question.replied", props⟩ =
        SseEvent.Unknown "question.replied (parse error)") := by
  refine ⟨?_, ?_, ?_, ?_, ?_, ?_, ?_⟩ <;> intro h <;> simp [SseEvent.fromEnvelope, h]

/-- C1 amended witness: empty properties lack the required sessionID of
session.idle, so the event becomes Unknown with the parse-error marker. -/
theorem claim_C1_amended_witness :
    SseEvent.fromEnvelope ⟨"session.idle", Json.obj []⟩ =
      SseEvent.Unknown "session.idle (parse error)" :=
  (claim_C1_amended (Json.obj [])).2.1 rfl

/-- C4: for every recognized discriminant, well-formed properties produce the
matching event variant populated from the parsed fields; in particular the
spec's concrete session.status retry scenario and session.idle scenario hold,
with the absent optional message field defaulted to None. -/
theorem claim_C4 :
    (∀ props p, parseMessageUpdatedProps props = some p →
      SseEvent.fromEnvelope ⟨"message.updated", props⟩ = SseEvent.MessageUpdated p.info) ∧
    (∀ props p, parseMessagePartUpdatedProps props = some p →
      SseEvent.fromEnvelope ⟨"message.part.updated", props⟩ =
        SseEvent.MessagePartUpdated p.part p.delta) ∧
    (∀ props p, parseSessionIdProps props = some p →
      SseEvent.fromEnvelope ⟨"session.idle", props⟩ = SseEvent.SessionIdle p.session_id) ∧
    (∀ props p, parseSessionErrorProps props = some p →
      SseEvent.fromEnvelope ⟨"session.error", props⟩ =
        SseEvent.SessionError p.session_id p.error) ∧
    (∀ props p, parseSessionStatusProps props = some p →
      SseEvent.fromEnvelope ⟨"session.status", props⟩ =
        SseEvent.SessionStatus p.session_id p.status) ∧
    (∀ props p, parsePermissionRequest props = some p →
      SseEvent.fromEnvelope ⟨"permission.asked", props⟩ = SseEvent.PermissionAsked p) ∧
    (∀ props p, parsePermissionRepliedProps props = some p →
      SseEvent.fromEnvelope ⟨"permission.replied", props⟩ =
        SseEvent.PermissionReplied p.session_id p.request_id p.reply) ∧
    (∀ props p, parseQuestionRequest props = some p →
      SseEvent.fromEnvelope ⟨"question.asked", props⟩ = SseEvent.QuestionAsked p) ∧
    (∀ props p, parseQuestionRepliedProps props = some p →
      SseEvent.fromEnvelope ⟨"question.replied", props⟩ =
        SseEvent.QuestionReplied p.session_id p.request_id) ∧
    SseEvent.fromEnvelope ⟨"session.status",
        Json.obj [("sessionID", Json.str "s2"),
          ("status", Json.obj [("type", Json.str "retry"), ("attempt", Json.num 3)])]⟩ =
      SseEvent.SessionStatus "s2" (SessionStatusPayload.Retry 3 none) ∧
    SseEvent.fromEnvelope ⟨"session.idle", Json.obj [("sessionID", Json.str "s1")]⟩ =
      SseEvent.SessionIdle "s1" := by
  refine ⟨?_, ?_, ?_, ?_, ?_, ?_, ?_, ?_, ?_, rfl, rfl⟩ <;> intro props p h <;>
    simp [SseEvent.fromEnvelope, h]

/-- C4 witness: the session.idle implication applied to concrete well-formed
properties. -/
theorem claim_C4_witness :
    SseEvent.fromEnvelope ⟨"session.idle", Json.obj [("sessionID", Json.str "sW")]⟩ =
      SseEvent.SessionIdle "sW" :=
  claim_C4.2.2.1 (Json.obj [("sessionID", Json.str "sW")]) { session_id := "sW" } rfl

/-- C6: optional fields of SendPromptRequest that are None are entirely absent
from the serialized object; with system, model and agent all None the key list
is exactly the parts key. -/
theorem claim_C6 (r : SendPromptRequest) :
    (r.system = none → "system" ∉ (SendPromptRequest.toJson r).keys) ∧
    (r.model = none → "model" ∉ (SendPromptRequest.toJson r).keys) ∧
    (r.agent = none → "agent" ∉ (SendPromptRequest.toJson r).keys) ∧
    (r.system = none → r.model = none → r.agent = none →
      (SendPromptRequest.toJson r).keys = ["parts"]) := by
  obtain ⟨parts, sys, mdl, ag⟩ := r
  refine ⟨?_, ?_, ?_, ?_⟩
  · rintro rfl
    cases mdl <;> cases ag <;> simp [SendPromptRequest.toJson, Json.keys]
  · rintro rfl
    cases sys <;> cases ag <;> simp [SendPromptRequest.toJson, Json.keys]
  · rintro rfl
    cases sys <;> cases mdl <;> simp [SendPromptRequest.toJson, Json.keys]
  · rintro rfl rfl rfl
    simp [SendPromptRequest.toJson, Json.keys]

/-- C6 witness: the all-optional-fields-absent request serializes with only
the parts key. -/
theorem claim_C6_witness :
    (SendPromptRequest.toJson { parts := [], system := none, model := none, agent := none }).keys
      = ["parts"] :=
  (claim_C6 { parts := [], system := none, model := none, agent := none }).2.2.2 rfl rfl rfl

/-- C7: load_recent returns the reverse of the first limit rows of the
channel's messages ordered by created_at descending; hence the result is in
chronological order, has length min limit (channel row count), contains only
messages of the channel, and every stored channel row it omits is no more
recent than any row it returns. -/
theorem claim_C7 (db : List ConversationMessage) (channel_id : String) (limit : Nat) :
    load_recent db channel_id limit =
      ((List.insertionSort createdDesc
        (db.filter (fun m => m.channel_id == channel_id))).take limit).reverse ∧
    List.Pairwise (fun a b => a.created_at ≤ b.created_at) (load_recent db channel_id limit) ∧
    (load_recent db channel_id limit).length =
      min limit (db.filter (fun m => m.channel_id == channel_id)).length ∧
    (∀ m ∈ load_recent db channel_id limit, m.channel_id = channel_id ∧ m ∈ db) ∧
    (∀ x ∈ load_recent db channel_id limit,
      ∀ y ∈ (channelRowsDesc db channel_id).drop limit, y.created_at ≤ x.created_at) := by
  have hs : List.Pairwise createdDesc (channelRowsDesc db channel_id) :=
    List.sorted_insertionSort createdDesc _
  have htake : List.Pairwise createdDesc ((channelRowsDesc db channel_id).take limit) :=
    List.Pairwise.sublist (List.take_sublist limit _) hs
  refine ⟨rfl, ?_, ?_, ?_, ?_⟩
  · rw [load_recent]
    exact List.pairwise_reverse.mpr (htake.imp (fun h => h))
  · simp [load_recent, channelRowsDesc]
  · intro m hm
    rw [load_recent, List.mem_reverse] at hm
    have hm2 : m ∈ channelRowsDesc db channel_id :=
      List.Sublist.mem hm (List.take_sublist limit _)
    rw [channelRowsDesc, List.mem_insertionSort, List.mem_filter] at hm2
    exact ⟨by simpa using hm2.2, hm2.1⟩
  · intro x hx y hy
    rw [load_recent, List.mem_reverse] at hx
    have hsplit := hs
    rw [← List.take_append_drop limit (channelRowsDesc db channel_id)] at hsplit
    exact (List.pairwise_append.mp hsplit).2.2 x hx y hy

/-- C7 witness: two stored messages of one channel, limit one; the returned
message belongs to the channel and to the store. -/
theorem claim_C7_witness :
    ({ id := "m2", channel_id := "chan", role := "assistant", sender_name := none,
       sender_id := none, content := "reply", metadata := none, created_at := 7 } :
        ConversationMessage).channel_id = "chan" ∧
    ({ id := "m2", channel_id := "chan", role := "assistant", sender_name := none,
       sender_id := none, content := "reply", metadata := none, created_at := 7 } :
        ConversationMessage) ∈
      [({ id := "m1", channel_id := "chan", role := "user", sender_name := none,
          sender_id := none, content := "hello", metadata := none, created_at := 5 } :
            ConversationMessage),
       { id := "m2", channel_id := "chan", role := "assistant", sender_name := none,
         sender_id := none, content := "reply", metadata := none, created_at := 7 }] :=
  (claim_C7
    [{ id := "m1", channel_id := "chan", role := "user", sender_name := none,
       sender_id := none, content := "hello", metadata := none, created_at := 5 },
     { id := "m2", channel_id := "chan", role := "assistant", sender_name := none,
       sender_id := none, content := "reply", metadata := none, created_at := 7 }]
    "chan" 1).2.2.2.1
    { id := "m2", channel_id := "chan", role := "assistant", sender_name := none,
      sender_id := none, content := "reply", metadata := none, created_at := 7 }
    (by decide)

/-- C8: a message.part.updated envelope with a tool part whose state object
carries a status outside the four known labels fails to deserialize as a whole
and classifies as Unknown with the parse-error marker: the unrecognized status
is neither coerced to a known tool state nor treated as an absent state. -/
theorem claim_C8 (props pfs sfs : List (String × Json)) (status : String)
    (hpart : getField props "part" = some (Json.obj pfs))
    (htype : getField pfs "type" = some (Json.str "tool"))
    (hstate : getField pfs "state" = some (Json.obj sfs))
    (hstatus : getField sfs "status" = some (Json.str status))
    (hp : status ≠ "pending") (hr : status ≠ "running")
    (hc : status ≠ "completed") (he : status ≠ "error") :
    SseEvent.fromEnvelope ⟨"message.part.updated", Json.obj props⟩ =
      SseEvent.Unknown "message.part.updated (parse error)" := by
  have hts : parseToolState (Json.obj sfs) = none := by
    simp [parseToolState, hstatus, hp, hr, hc, he]
  have hsf : optField parseToolState pfs "state" = none := by
    simp [optField, hstate, parseOpt, hts]
  have hpp : parsePart (Json.obj pfs) = none := by
    simp [parsePart, htype, hsf]
  have hmp : parseMessagePartUpdatedProps (Json.obj props) = none := by
    simp [parseMessagePartUpdatedProps, reqField, hpart, hpp]
  simp [SseEvent.fromEnvelope, hmp]

/-- C8 witness: a concrete tool part whose state status is an unknown label. -/
theorem claim_C8_witness :
    SseEvent.fromEnvelope ⟨"message.part.updated",
        Json.obj [("part", Json.obj [("type", Json.str "tool"), ("id", Json.str "p1"),
          ("state", Json.obj [("status", Json.str "weird")])])]⟩ =
      SseEvent.Unknown "message.part.updated (parse error)" :=
  claim_C8 [("part", Json.obj [("type", Json.str "tool"), ("id", Json.str "p1"),
      ("state", Json.obj [("status", Json.str "weird")])])]
    [("type", Json.str "tool"), ("id", Json.str "p1"),
      ("state", Json.obj [("status", Json.str "weird")])]
    [("status", Json.str "weird")] "weird" rfl rfl rfl rfl
    (by decide) (by decide) (by decide) (by decide)

end Spacebot
